import Mathlib

/-!
Shallow embedding of the podcastfy wrapper (src/app/models.py and
src/app/main.py): the request normalizer, the encoding-fallback file
reader, the API-key guard, the credential environment writes, and the
two engine-invoking HTTP handlers, with theorems about them.

Python strings are modelled as Lean `String` where only identity matters,
and as `List Nat` of Unicode code points where decoding is at issue; file
bytes are `List (Fin 256)`; `float` values are only ever passed through
verbatim by this code, so `creativity` is modelled by `Rat`.
-/

/-- Model of `VoiceConfig` (src/app/models.py, lines 4-6): a voice
identifier for the "question" role and one for the "answer" role. -/
structure VoiceConfig where
  question : String
  answer : String
deriving DecidableEq, Repr

/-- Model of the `text_to_speech` dict literal built at
src/app/models.py lines 46-52: the five keys the normalizer writes.
`voices` stands for `self.voices.dict()`, the two-key mapping produced
from `VoiceConfig`. -/
structure TextToSpeechSettings where
  voices : VoiceConfig
  engagement_techniques : List String
  conversation_style : List String
  dialogue_structure : List String
  output_language : String
deriving DecidableEq, Repr

/-- Model of `ConversationConfig` (src/app/models.py, lines 56-64),
with the schema defaults of the pydantic model. -/
structure ConversationConfig where
  roles_person1 : Option String := none
  roles_person2 : Option String := none
  podcast_name : Option String := none
  podcast_tagline : Option String := none
  creativity : Option Rat := some 1
  user_instructions : Option String := none
  text_to_speech : Option TextToSpeechSettings := none
  output_language : Option String := some "German"
deriving DecidableEq, Repr

/-- Model of `GeneratePodcastRequest` (src/app/models.py, lines 75-82),
with the schema defaults of the pydantic model. -/
structure GeneratePodcastRequest where
  text : Option String := none
  urls : Option (List String) := none
  image_paths : Option (List String) := none
  tts_model : Option String := some "openai"
  conversation_config : Option ConversationConfig := none
  longform : Bool := false
  output_language : Option String := some "German"
deriving DecidableEq, Repr

/-- Model of `UserPodcastRequest` (src/app/models.py, lines 8-27): the
flat user-facing schema. -/
structure UserPodcastRequest where
  stream_output : Bool := false
  google_key : String
  openai_key : String
  elevenlabs_key : String
  urls : List String
  text : String
  name : String
  tagline : String
  creativity : Rat
  conversation_style : List String
  roles_person1 : String
  roles_person2 : String
  dialogue_structure : List String
  tts_model : String
  is_long_form : Bool
  engagement_techniques : List String
  user_instructions : String
  output_language : String
  voices : VoiceConfig
deriving DecidableEq, Repr

/-- Model of `UserPodcastRequest.to_generate_podcast_request`
(src/app/models.py, lines 29-54). Fields the constructor call does not
mention (`image_paths`, the top-level `output_language`) keep their
schema defaults. -/
def UserPodcastRequest.to_generate_podcast_request
    (self : UserPodcastRequest) : GeneratePodcastRequest :=
  { urls := some self.urls
    text := some self.text
    tts_model := some self.tts_model
    longform := self.is_long_form
    conversation_config := some
      { roles_person1 := some self.roles_person1
        roles_person2 := some self.roles_person2
        podcast_name := some self.name
        podcast_tagline := some self.tagline
        creativity := some self.creativity
        user_instructions := some self.user_instructions
        output_language := some self.output_language
        text_to_speech := some
          { voices := self.voices
            engagement_techniques := self.engagement_techniques
            conversation_style := self.conversation_style
            dialogue_structure := self.dialogue_structure
            output_language := self.output_language } } }

/-- A UTF-8 continuation byte: 0x80-0xBF. -/
def isCont (b : Fin 256) : Bool := 128 ≤ b.val && b.val < 192

/-- Allowed ranges for the first continuation byte of a 3-byte UTF-8
sequence led by `b` (strict decoding: overlong forms and surrogate code
points are errors, as in Python's `utf-8` codec). -/
def utf8First3Ok (b c1 : Fin 256) : Bool :=
  if b.val = 224 then 160 ≤ c1.val && c1.val < 192
  else if b.val = 237 then 128 ≤ c1.val && c1.val < 160
  else isCont c1

/-- Allowed ranges for the first continuation byte of a 4-byte UTF-8
sequence led by `b` (strict decoding: overlong forms and code points
above U+10FFFF are errors). -/
def utf8First4Ok (b c1 : Fin 256) : Bool :=
  if b.val = 240 then 144 ≤ c1.val && c1.val < 192
  else if b.val = 244 then 128 ≤ c1.val && c1.val < 144
  else isCont c1

/-- Strict UTF-8 decoding of a byte sequence to code points, as Python's
`utf-8` codec performs it for `open(path, encoding='utf-8')`:
`none` models a `UnicodeDecodeError`. -/
def decodeUtf8 : List (Fin 256) → Option (List Nat)
  | [] => some []
  | b :: rest =>
    if b.val < 128 then
      (decodeUtf8 rest).map (fun cs => b.val :: cs)
    else if b.val < 194 then none
    else if b.val < 224 then
      match rest with
      | c1 :: r =>
        if isCont c1 then
          (decodeUtf8 r).map (fun cs => ((b.val - 192) * 64 + (c1.val - 128)) :: cs)
        else none
      | [] => none
    else if b.val < 240 then
      match rest with
      | c1 :: c2 :: r =>
        if utf8First3Ok b c1 && isCont c2 then
          (decodeUtf8 r).map
            (fun cs => ((b.val - 224) * 4096 + (c1.val - 128) * 64 + (c2.val - 128)) :: cs)
        else none
      | _ => none
    else if b.val < 245 then
      match rest with
      | c1 :: c2 :: c3 :: r =>
        if utf8First4Ok b c1 && isCont c2 && isCont c3 then
          (decodeUtf8 r).map
            (fun cs => ((b.val - 240) * 262144 + (c1.val - 128) * 4096
              + (c2.val - 128) * 64 + (c3.val - 128)) :: cs)
        else none
      | _ => none
    else none

/-- One byte of Windows-1252 (`cp1252`) decoding: ASCII and 0xA0-0xFF map
to themselves, 0x80-0x9F map through the Windows-1252 table, and the five
undefined bytes 0x81, 0x8D, 0x8F, 0x90, 0x9D are decoding errors. -/
def cp1252Byte (b : Fin 256) : Option Nat :=
  if b.val < 128 then some b.val
  else if 160 ≤ b.val then some b.val
  else match b.val with
    | 128 => some 8364
    | 130 => some 8218
    | 131 => some 402
    | 132 => some 8222
    | 133 => some 8230
    | 134 => some 8224
    | 135 => some 8225
    | 136 => some 710
    | 137 => some 8240
    | 138 => some 352
    | 139 => some 8249
    | 140 => some 338
    | 142 => some 381
    | 145 => some 8216
    | 146 => some 8217
    | 147 => some 8220
    | 148 => some 8221
    | 149 => some 8226
    | 150 => some 8211
    | 151 => some 8212
    | 152 => some 732
    | 153 => some 8482
    | 154 => some 353
    | 155 => some 8250
    | 156 => some 339
    | 158 => some 382
    | 159 => some 376
    | _ => none

/-- Windows-1252 (`cp1252`) decoding of a byte sequence. -/
def decodeCp1252 : List (Fin 256) → Option (List Nat)
  | [] => some []
  | b :: rest =>
    match cp1252Byte b with
    | some c => (decodeCp1252 rest).map (fun cs => c :: cs)
    | none => none

/-- Latin-1 decoding of a byte sequence: every byte maps to the code
point of the same value, so no byte sequence is a decoding error.
Python's `iso-8859-1` and `latin1` are two names of this same codec. -/
def decodeLatin1 : List (Fin 256) → Option (List Nat)
  | [] => some []
  | b :: rest => (decodeLatin1 rest).map (fun cs => b.val :: cs)

/-- Universal-newline translation performed by Python's text-mode
`open(path, 'r', ...)` (default `newline=None`): each of CRLF and a lone
CR becomes LF in the returned string. -/
def universalNewlines : List Nat → List Nat
  | [] => []
  | [c] => if c = 13 then [10] else [c]
  | c :: d :: rest =>
    if c = 13 then
      if d = 10 then 10 :: universalNewlines rest
      else 10 :: universalNewlines (d :: rest)
    else c :: universalNewlines (d :: rest)

/-- One iteration body of `read_file_content`'s loop (src/app/main.py,
lines 38-43): open the file in text mode under one codec and read it —
decode the bytes, then apply universal-newline translation. -/
def readText (decode : List (Fin 256) → Option (List Nat))
    (bs : List (Fin 256)) : Option (List Nat) :=
  (decode bs).map universalNewlines

/-- Errors the reader can raise. `typeError` models a Python `TypeError`;
`unicodeDecodeError` a `UnicodeDecodeError`. -/
inductive PyError where
  | unicodeDecodeError
  | typeError
deriving DecidableEq, Repr

/-- The encoding-fallback loop of `read_file_content` (src/app/main.py,
lines 38-47): return the first codec's result that decodes; when every
codec fails, evaluate `raise UnicodeDecodeError(msg)` — which passes one
argument where Python's `UnicodeDecodeError` constructor requires five
(encoding, object, start, end, reason), so the raise statement itself
raises `TypeError`, not `UnicodeDecodeError`. -/
def tryEncodings : List (List (Fin 256) → Option (List Nat)) → List (Fin 256) →
    Except PyError (List Nat)
  | [], _ => .error .typeError
  | d :: ds, bs =>
    match readText d bs with
    | some s => .ok s
    | none => tryEncodings ds bs

/-- The codec list of src/app/main.py line 36:
`['utf-8', 'cp1252', 'iso-8859-1', 'latin1']`; the last two entries name
the same codec. -/
def encodings : List (List (Fin 256) → Option (List Nat)) :=
  [decodeUtf8, decodeCp1252, decodeLatin1, decodeLatin1]

/-- Model of `read_file_content` (src/app/main.py, lines 23-47), as a
function of the file's byte content. -/
def read_file_content (bs : List (Fin 256)) : Except PyError (List Nat) :=
  tryEncodings encodings bs

/-- Model of FastAPI's `HTTPException`: status code, detail message, and
response headers. -/
structure HTTPError where
  status_code : Nat
  detail : String
  headers : List (String × String) := []
deriving DecidableEq, Repr

/-- The static pre-shared key of src/app/main.py line 10. -/
def API_KEY : String := "tZmH2qv4PwjbXl0Ks6D8YrE3nRdCzT5oBfGaIuVxL9Jy"

/-- Model of `get_api_key` (src/app/main.py, lines 14-21). `APIKeyQuery`
with `auto_error=False` hands the dependency the query parameter's value,
or `None` when the parameter is missing, modelled by `Option String`;
`None` compares unequal to the key constant. -/
def get_api_key (api_key : Option String) : Except HTTPError (Option String) :=
  if api_key ≠ some API_KEY then
    .error { status_code := 401, detail := "Invalid API key"
             headers := [("WWW-Authenticate", "ApiKey")] }
  else .ok api_key

/-- Process environment state: each variable name maps to its value when
set. -/
abbrev Env : Type := String → Option String

/-- One assignment `os.environ[k] = v`. -/
def setEnv (k v : String) (env : Env) : Env :=
  fun k2 => if k2 = k then some v else env k2

/-- The credential writes of the podcast handler (src/app/main.py, lines
66-71): GEMINI and OPENAI unconditionally, ELEVENLABS only when
`request.elevenlabs_key` is truthy (a non-empty string). -/
def set_api_keys_podcast (req : UserPodcastRequest) (env : Env) : Env :=
  let env1 := setEnv "GEMINI_API_KEY" req.google_key env
  let env2 := setEnv "OPENAI_API_KEY" req.openai_key env1
  if req.elevenlabs_key ≠ "" then setEnv "ELEVENLABS_API_KEY" req.elevenlabs_key env2
  else env2

/-- The credential writes of the transcript handler (src/app/main.py,
lines 114-117): all three unconditionally. -/
def set_api_keys_transcript (req : UserPodcastRequest) (env : Env) : Env :=
  let env1 := setEnv "GEMINI_API_KEY" req.google_key env
  let env2 := setEnv "OPENAI_API_KEY" req.openai_key env1
  setEnv "ELEVENLABS_API_KEY" req.elevenlabs_key env2

/-- Model of `os.path.basename` for the slash-separated paths these
handlers produce. -/
def basename (p : String) : String :=
  (p.splitOn "/").getLastD ""

/-- What a handler hands back to FastAPI: a `FileResponse`, the
transcript JSON body, or an `HTTPException` response. -/
inductive HandlerResult where
  | fileResponse (path : String) (media_type : String) (filename : String)
      (content_disposition_type : String)
  | transcriptResponse (transcript : List Nat)
  | httpError (status_code : Nat) (detail : String)
deriving DecidableEq, Repr

/-- Model of the `generate_podcast_file` handler (src/app/main.py, lines
54-101), parameterised by the opaque engine call (which receives the
normalized request's text, urls, image_paths, tts_model,
conversation_config and longform, and returns a path or raises, modelled
by `Except String String`) and by which paths exist on disk. The
`HTTPException(404)` raised when the output path is missing is itself an
`Exception`, so the handler's own `except Exception` clause catches it
and re-raises `HTTPException(500, str(e))`, where Starlette renders
`str(e)` as `"404: <detail>"`. Returns the response and the environment
after the credential writes. -/
def generate_podcast_file (req : UserPodcastRequest) (env : Env)
    (engine : GeneratePodcastRequest → Except String String)
    (fs_exists : String → Bool) : HandlerResult × Env :=
  let env2 := set_api_keys_podcast req env
  let generate_request := req.to_generate_podcast_request
  match engine generate_request with
  | .error msg => (.httpError 500 msg, env2)
  | .ok output_file =>
    if fs_exists output_file then
      (.fileResponse output_file "audio/mpeg" (basename output_file)
        (if req.stream_output then "inline" else "attachment"), env2)
    else
      (.httpError 500 ("404: " ++ "Generated audio file not found"), env2)

/-- Model of the `generate_transcript` handler (src/app/main.py, lines
103-158), parameterised like `generate_podcast_file` (its engine is
invoked with `transcript_only=True`) plus the byte content on disk at
each path. Both the missing-output `HTTPException(404)` and the inner
decode-failure `HTTPException(500, ...)` are raised inside the outer
`try`, so the outer `except Exception` re-wraps them as
`HTTPException(500, str(e))` with `str(e) = "<status>: <detail>"`; a
`TypeError` escaping `read_file_content` would land in the inner broad
`except Exception` first. -/
def generate_transcript (req : UserPodcastRequest) (env : Env)
    (engine : GeneratePodcastRequest → Except String String)
    (fs_exists : String → Bool) (file_bytes : String → List (Fin 256)) :
    HandlerResult × Env :=
  let env2 := set_api_keys_transcript req env
  let generate_request := req.to_generate_podcast_request
  match engine generate_request with
  | .error msg => (.httpError 500 msg, env2)
  | .ok output_file =>
    if fs_exists output_file then
      match read_file_content (file_bytes output_file) with
      | .ok content => (.transcriptResponse content, env2)
      | .error .unicodeDecodeError =>
        (.httpError 500 ("500: " ++ "Error reading transcript: Unsupported file encoding"),
          env2)
      | .error .typeError =>
        (.httpError 500 ("500: " ++ "Error reading transcript: "
          ++ "function takes exactly 5 arguments (1 given)"), env2)
    else
      (.httpError 500 ("404: " ++ "Generated transcript not found"), env2)

/-- A concrete `UserPodcastRequest` used to evaluate the theorems below
at explicit inputs. -/
def sampleReq : UserPodcastRequest :=
  { stream_output := false
    google_key := "gk"
    openai_key := "oa"
    elevenlabs_key := "el"
    urls := ["https://example.com/a"]
    text := "hello"
    name := "Show"
    tagline := "Tag"
    creativity := 1
    conversation_style := ["casual"]
    roles_person1 := "host"
    roles_person2 := "guest"
    dialogue_structure := ["intro"]
    tts_model := "openai"
    is_long_form := false
    engagement_techniques := ["questions"]
    user_instructions := "none"
    output_language := "German"
    voices := { question := "alloy", answer := "echo" } }

/-- A concrete environment in which the ElevenLabs slot already holds a
value, used to exhibit the transcript handler overwriting it. -/
def envPrev : Env :=
  fun k => if k = "ELEVENLABS_API_KEY" then some "old-key" else none

/-- The empty environment. -/
def env0 : Env := fun _ => none

/-- Latin-1 decoding succeeds on every byte sequence, yielding the code
points of the byte values. -/
theorem decodeLatin1_total (bs : List (Fin 256)) :
    decodeLatin1 bs = some (bs.map (fun b => b.val)) := by
  induction bs with
  | nil => rfl
  | cons b rest ih => simp [decodeLatin1, ih]

/-- Universal-newline translation is the identity on strings that contain
no carriage return. -/
theorem universalNewlines_no_cr : ∀ s : List Nat, 13 ∉ s → universalNewlines s = s := by
  intro s
  induction s with
  | nil => intro _; rfl
  | cons c rest ih =>
    intro h
    have hc : c ≠ 13 := fun e => h (by simp [e])
    have hr : 13 ∉ rest := fun m => h (List.mem_cons_of_mem _ m)
    cases rest with
    | nil => rw [universalNewlines, if_neg hc]
    | cons d rest2 =>
      have step : universalNewlines (c :: d :: rest2) = c :: universalNewlines (d :: rest2) := by
        rw [universalNewlines, if_neg hc]
      rw [step, ih hr]

/-- C1: field-mapping fidelity of the normalizer — for every
`UserPodcastRequest`, `to_generate_podcast_request` maps urls, text,
tts_model and is_long_form to the top level, the remaining fields into
`ConversationConfig`, and bundles voices, engagement_techniques,
conversation_style, dialogue_structure and output_language verbatim into
`text_to_speech` (so `output_language` is set both on the config and
inside the bundle). -/
theorem normalizer_field_mapping (r : UserPodcastRequest) :
    r.to_generate_podcast_request.urls = some r.urls ∧
    r.to_generate_podcast_request.text = some r.text ∧
    r.to_generate_podcast_request.tts_model = some r.tts_model ∧
    r.to_generate_podcast_request.longform = r.is_long_form ∧
    r.to_generate_podcast_request.conversation_config = some
      { roles_person1 := some r.roles_person1
        roles_person2 := some r.roles_person2
        podcast_name := some r.name
        podcast_tagline := some r.tagline
        creativity := some r.creativity
        user_instructions := some r.user_instructions
        output_language := some r.output_language
        text_to_speech := some
          { voices := r.voices
            engagement_techniques := r.engagement_techniques
            conversation_style := r.conversation_style
            dialogue_structure := r.dialogue_structure
            output_language := r.output_language } } :=
  ⟨rfl, rfl, rfl, rfl, rfl⟩

/-- C6: for every `UserPodcastRequest`, the normalized request's
`image_paths` is the absent default — no input field influences it. -/
theorem normalizer_image_paths_absent (r : UserPodcastRequest) :
    r.to_generate_podcast_request.image_paths = none :=
  rfl

/-- C10: noninterference of the secrets and the streaming flag — two
requests that agree on everything except `google_key`, `openai_key`,
`elevenlabs_key` and `stream_output` normalize to structurally equal
internal requests, and the internal request's own top-level
`output_language` is never set by the normalizer: it keeps its schema
default for every input. -/
theorem normalizer_secret_noninterference (r : UserPodcastRequest)
    (g o e : String) (s : Bool) :
    ({ r with
        google_key := g
        openai_key := o
        elevenlabs_key := e
        stream_output := s } : UserPodcastRequest).to_generate_podcast_request
      = r.to_generate_podcast_request ∧
    r.to_generate_podcast_request.output_language = some "German" :=
  ⟨rfl, rfl⟩

/-- C9: the API-key gate — a missing key or one differing from the
configured constant yields a 401 error carrying the
`WWW-Authenticate: ApiKey` header; the exact key passes the guard. -/
theorem api_key_gate :
    (∀ k, k ≠ some API_KEY →
      get_api_key k = Except.error
        { status_code := 401, detail := "Invalid API key"
          headers := [("WWW-Authenticate", "ApiKey")] }) ∧
    get_api_key none = Except.error
      { status_code := 401, detail := "Invalid API key"
        headers := [("WWW-Authenticate", "ApiKey")] } ∧
    get_api_key (some API_KEY) = Except.ok (some API_KEY) := by
  refine ⟨?_, ?_, ?_⟩
  · intro k hk
    rw [get_api_key, if_pos hk]
  · rfl
  · rw [get_api_key, if_neg (by simp)]

/-- C4: when the encoding loop is exhausted (every codec failed — which
no byte sequence can cause, since the latin-1 codec at the end of the
list succeeds on every byte sequence), the final `raise` statement
produces a `TypeError`, not the `UnicodeDecodeError` the docstring
declares, because it passes one argument to a constructor that requires
five. -/
theorem exhausted_decoder_raise_is_type_error (bs : List (Fin 256)) :
    tryEncodings [] bs = Except.error PyError.typeError ∧
    (decodeLatin1 bs).isSome = true :=
  ⟨rfl, by simp [decodeLatin1_total]⟩

/-- C5: totality of the resilient reader — for every byte sequence as
file content, `read_file_content` returns a decoded string and never an
error, because the codec list ends in latin-1, which accepts every byte
sequence. -/
theorem read_file_content_total (bs : List (Fin 256)) :
    ∃ s, read_file_content bs = Except.ok s := by
  unfold read_file_content encodings
  cases hu : decodeUtf8 bs with
  | some s => exact ⟨universalNewlines s, by simp [tryEncodings, readText, hu]⟩
  | none =>
    cases hc : decodeCp1252 bs with
    | some s => exact ⟨universalNewlines s, by simp [tryEncodings, readText, hu, hc]⟩
    | none =>
      refine ⟨universalNewlines (bs.map (fun b => b.val)), ?_⟩
      simp [tryEncodings, readText, hu, hc, decodeLatin1_total]

/-- C2 counterexample: the credential fields are not recoverable from the
normalized request — no function can read `google_key` back off
`to_generate_podcast_request`'s output, exhibited by two concrete
requests differing only in `google_key` that normalize identically. -/
theorem normalizer_not_lossless_google_key :
    ¬ ∃ f : GeneratePodcastRequest → String,
        ∀ r : UserPodcastRequest, f r.to_generate_podcast_request = r.google_key := by
  rintro ⟨f, hf⟩
  have h1 := hf sampleReq
  have h2 := hf { sampleReq with google_key := "gk2" }
  have e : ({ sampleReq with google_key := "gk2" } :
      UserPodcastRequest).to_generate_podcast_request
      = sampleReq.to_generate_podcast_request := rfl
  rw [e, h1] at h2
  have : ("gk" : String) = "gk2" := h2
  exact absurd this (by decide)

/-- C2 amended: the normalizer is pure and lossless for every field
except the three credentials and `stream_output` (which do not flow into
the internal request at all) and `image_paths` (which has no source
field): two requests with equal normalizations agree on all fourteen
non-secret fields. -/
theorem normalizer_lossless_on_non_secret_fields
    (r1 r2 : UserPodcastRequest)
    (h : r1.to_generate_podcast_request = r2.to_generate_podcast_request) :
    r1.urls = r2.urls ∧ r1.text = r2.text ∧ r1.tts_model = r2.tts_model ∧
    r1.is_long_form = r2.is_long_form ∧ r1.name = r2.name ∧
    r1.tagline = r2.tagline ∧ r1.creativity = r2.creativity ∧
    r1.conversation_style = r2.conversation_style ∧
    r1.roles_person1 = r2.roles_person1 ∧ r1.roles_person2 = r2.roles_person2 ∧
    r1.dialogue_structure = r2.dialogue_structure ∧
    r1.engagement_techniques = r2.engagement_techniques ∧
    r1.user_instructions = r2.user_instructions ∧
    r1.output_language = r2.output_language ∧ r1.voices = r2.voices := by
  simp only [UserPodcastRequest.to_generate_podcast_request,
    GeneratePodcastRequest.mk.injEq, ConversationConfig.mk.injEq,
    TextToSpeechSettings.mk.injEq, Option.some.injEq] at h
  tauto

/-- C2 witness: the amended theorem applied to two concrete requests with
equal normalizations. -/
theorem normalizer_lossless_witness :
    sampleReq.urls
      = ({ sampleReq with google_key := "gk2" } : UserPodcastRequest).urls :=
  (normalizer_lossless_on_non_secret_fields sampleReq
    { sampleReq with google_key := "gk2" } rfl).1

/-- C3: when the engine returns a path that does not exist on disk, both
handlers respond 500, not 404 — the `HTTPException(404)` they raise is
caught by their own blanket `except Exception` clause and re-raised as
`HTTPException(500, str(e))`, evaluated here at a concrete request. -/
theorem missing_output_reported_as_500 :
    (generate_podcast_file sampleReq env0 (fun _ => Except.ok "missing.mp3")
        (fun _ => false)).1
      = HandlerResult.httpError 500 "404: Generated audio file not found" ∧
    (generate_transcript sampleReq env0 (fun _ => Except.ok "missing.txt")
        (fun _ => false) (fun _ => [])).1
      = HandlerResult.httpError 500 "404: Generated transcript not found" :=
  ⟨rfl, rfl⟩

/-- C7 counterexample: a file whose bytes are valid UTF-8 (CR LF) is not
returned verbatim — text-mode reading applies universal-newline
translation, so the decoded CR LF comes back as a single LF. -/
theorem read_utf8_crlf_translated :
    decodeUtf8 [13, 10] = some [13, 10] ∧
    read_file_content [13, 10] = Except.ok [10] ∧
    ([10] : List Nat) ≠ [13, 10] := by
  refine ⟨rfl, rfl, ?_⟩
  decide

/-- C7 amended: for a file whose bytes decode under UTF-8, the first
codec succeeds and its result is returned immediately — equal to the
decoded text up to universal-newline translation, hence exactly the
decoded text whenever it contains no carriage return; the empty file
yields the empty string. -/
theorem read_utf8_identity_up_to_newlines :
    (∀ bs s, decodeUtf8 bs = some s →
      read_file_content bs = Except.ok (universalNewlines s)) ∧
    (∀ s : List Nat, 13 ∉ s → universalNewlines s = s) ∧
    read_file_content [] = Except.ok [] := by
  refine ⟨?_, universalNewlines_no_cr, rfl⟩
  intro bs s h
  simp [read_file_content, encodings, tryEncodings, readText, h]

/-- C8 counterexample: in the transcript handler the ElevenLabs write is
not conditional — with an empty `elevenlabs_key` the handler still
overwrites the `ELEVENLABS_API_KEY` slot (here clobbering an existing
value with the empty string) instead of leaving it unchanged. -/
theorem transcript_sets_elevenlabs_unconditionally :
    set_api_keys_transcript { sampleReq with elevenlabs_key := "" } envPrev
        "ELEVENLABS_API_KEY" = some "" ∧
    envPrev "ELEVENLABS_API_KEY" = some "old-key" ∧
    set_api_keys_transcript { sampleReq with elevenlabs_key := "" } envPrev
        "ELEVENLABS_API_KEY" ≠ envPrev "ELEVENLABS_API_KEY" := by
  refine ⟨rfl, rfl, ?_⟩
  decide

/-- C8 amended: both handlers install `google_key` and `openai_key` under
GEMINI_API_KEY and OPENAI_API_KEY and touch no other environment name;
the podcast handler writes ELEVENLABS_API_KEY only when `elevenlabs_key`
is non-empty (leaving the slot unchanged otherwise), while the transcript
handler writes it unconditionally. -/
theorem api_key_env_installation (req : UserPodcastRequest) (env : Env) :
    set_api_keys_podcast req env "GEMINI_API_KEY" = some req.google_key ∧
    set_api_keys_podcast req env "OPENAI_API_KEY" = some req.openai_key ∧
    set_api_keys_podcast req env "ELEVENLABS_API_KEY"
      = (if req.elevenlabs_key ≠ "" then some req.elevenlabs_key
         else env "ELEVENLABS_API_KEY") ∧
    (∀ k, k ≠ "GEMINI_API_KEY" → k ≠ "OPENAI_API_KEY" → k ≠ "ELEVENLABS_API_KEY" →
      set_api_keys_podcast req env k = env k) ∧
    set_api_keys_transcript req env "GEMINI_API_KEY" = some req.google_key ∧
    set_api_keys_transcript req env "OPENAI_API_KEY" = some req.openai_key ∧
    set_api_keys_transcript req env "ELEVENLABS_API_KEY" = some req.elevenlabs_key ∧
    (∀ k, k ≠ "GEMINI_API_KEY" → k ≠ "OPENAI_API_KEY" → k ≠ "ELEVENLABS_API_KEY" →
      set_api_keys_transcript req env k = env k) := by
  refine ⟨?_, ?_, ?_, ?_, ?_, ?_, ?_, ?_⟩
  · unfold set_api_keys_podcast
    split <;> simp [setEnv]
  · unfold set_api_keys_podcast
    split <;> simp [setEnv]
  · unfold set_api_keys_podcast
    split <;> simp_all [setEnv]
  · intro k h1 h2 h3
    unfold set_api_keys_podcast
    split <;> simp [setEnv, h1, h2, h3]
  · simp [set_api_keys_transcript, setEnv]
  · simp [set_api_keys_transcript, setEnv]
  · simp [set_api_keys_transcript, setEnv]
  · intro k h1 h2 h3
    simp [set_api_keys_transcript, setEnv, h1, h2, h3]
